import Mathlib

/-!
Verification development for the `poetricmeter` repository
(`src/streamlit_app.py`).

The application is a Streamlit front end around the OpenAI chat API:
`analyze_bahr`, `validate_meter`, `fit_to_bahr` and `generate_response`
each build one chat request and return the external model's reply (with a
fallback value when the call raises), and a top-level button handler wires
them together.  The only fully local computation is
`extract_bahr_from_analysis`.

Embedding conventions:
* A Python `str` is a Lean `String`; where character-level scanning
  matters (the regular expression in `extract_bahr_from_analysis`) we work
  on `List Char`, which is exactly `String.data`.
* The OpenAI client is an explicit oracle parameter
  `complete : ChatRequest → Except String String`: `Except.ok r` models a
  successful API reply with text `r`, `Except.error e` models the call
  raising an exception (caught by the surrounding `try`/`except`).
* Python `None`-or-`str` values are `Option String`; Python truthiness of
  such a value is `truthy` below.
* Streamlit display calls (`st.error`, `st.warning`, `st.markdown`,
  `st.balloons`) are recorded as an ordered list of `UIEvent`s; a Python
  runtime error (reading a never-assigned variable raises `NameError`) is
  modelled as `Except.error (PyError.nameError name)`.

The prosodic-scansion engine described by the specification (character
classifier, syllabifier, edit-distance meter matcher) does not appear in
`src/`; where a claim is decided by that engine, definitions below are
modelled from the specification's words and are marked
`Modelled from the spec:`.
-/

namespace PoetricMeter

/-- One chat message of an OpenAI request: a role ("system" / "user") and
its text content. -/
structure ChatMessage where
  role : String
  content : String
deriving DecidableEq

/-- One OpenAI chat-completion request, as built by
`client.chat.completions.create(model=..., messages=..., temperature=...)`
in `src/streamlit_app.py`. -/
structure ChatRequest where
  model : String
  messages : List ChatMessage
  temperature : ℚ
deriving DecidableEq

/-- The external OpenAI client, as an oracle: `Except.ok r` is a reply
whose `choices[0].message.content` is `r`; `Except.error e` is the call
raising exception `e`. -/
abbrev Completion := ChatRequest → Except String String

/-- Python truthiness of a `None`-or-`str` value: `None` and `""` are
falsy, every other string is truthy. -/
def truthy : Option String → Bool
  | Option.none => false
  | some s => s != ""

/-- Python `str.strip()` on a character list: drop leading and trailing
whitespace. -/
def stripChars (cs : List Char) : List Char :=
  ((cs.dropWhile Char.isWhitespace).reverse.dropWhile Char.isWhitespace).reverse

/-- Python `str.strip()`: the string with leading and trailing whitespace
removed. -/
def pyStrip (s : String) : String :=
  String.mk (stripChars s.data)

/-- The system prompt of `analyze_bahr` (`src/streamlit_app.py` lines
13-53), transcribed verbatim. -/
def analyze_system_prompt : String :=
  "You are an expert in Arabic prosody (علم العروض).
                Follow these EXACT steps to analyze the verse:

                1. First, write the verse with complete diacritical marks (تشكيل)

                2. Perform scansion (التقطيع العروضي):
                   - Split into syllables using traditional symbols (٫)
                   - Mark each syllable as sabab khafif (//), sabab thaqil (///), or watad majmoo (/0/)
                   - Write complete taf'ilah units

                3. Compare with standard meters:
                   الطويل: فعولن مفاعيلن فعولن مفاعلن (×٢)
                   البسيط: مستفعلن فاعلن مستفعلن فاعلن (×٢)
                   الوافر: مفاعلتن مفاعلتن فعولن (×٢)
                   الكامل: متفاعلن متفاعلن متفاعلن (×٢)
                   الرجز: مستفعلن مستفعلن مستفعلن (×٢)
                   الرمل: فاعلاتن فاعلاتن فاعلاتن (×٢)
                   السريع: مستفعلن مستفعلن مفعولات
                   المنسرح: مستفعلن مفعولات مستفعلن
                   الخفيف: فاعلاتن مستفعلن فاعلاتن

                Format your response EXACTLY as:

                **Original with Tashkeel:**
                [Fully voweled verse]

                **Scansion Steps:**
                1. Syllable division: [Show syllables separated by ٫]
                2. Metrical units: [Mark each // /// /0/]
                3. Taf'ilah breakdown: [Show complete taf'ilah units]

                **Pattern Matching:**
                - Found pattern: [Write the complete metrical pattern]
                - Matches standard: [Show which standard meter this matches]

                **Conclusion:**
                [State the Bahr name in bold: **بحر name**]

                If NO exact match is found, analyze WHY it doesn't match and respond with 'NO_MATCH' with explanation.

                If the verse doesn't match any Bahr, explain why and respond with 'NO_MATCH'"

/-- The single chat request issued by `analyze_bahr` for a given poem. -/
def analyze_bahr_request (poem : String) : ChatRequest :=
  { model := "gpt-4"
    messages := [⟨"system", analyze_system_prompt⟩, ⟨"user", poem⟩]
    temperature := 1 / 10 }

/-- `analyze_bahr` (`src/streamlit_app.py` lines 7-61): send the poem with
the analysis system prompt, return the stripped reply; on exception show
an error and return `None`. -/
def analyze_bahr (complete : Completion) (poem : String) : Option String :=
  match complete (analyze_bahr_request poem) with
  | Except.ok r => some (pyStrip r)
  | Except.error _ => Option.none

/-- The static meter table of `validate_meter`
(`src/streamlit_app.py` lines 65-75): meter name to canonical foot text. -/
def standard_patterns : List (String × String) :=
  [("الطويل", "فعولن مفاعيلن فعولن مفاعلن"),
   ("البسيط", "مستفعلن فاعلن مستفعلن فاعلن"),
   ("الوافر", "مفاعلتن مفاعلتن فعولن"),
   ("الكامل", "متفاعلن متفاعلن متفاعلن"),
   ("الرجز", "مستفعلن مستفعلن مستفعلن"),
   ("الرمل", "فاعلاتن فاعلاتن فاعلاتن"),
   ("السريع", "مستفعلن مستفعلن مفعولات"),
   ("المنسرح", "مستفعلن مفعولات مستفعلن"),
   ("الخفيف", "فاعلاتن مستفعلن فاعلاتن")]

/-- The single chat request issued by `validate_meter`: the f-string
system prompt interpolates the claimed meter and
`standard_patterns.get(claimed_bahr, 'Unknown')`. -/
def validate_meter_request (text claimed_bahr : String) : ChatRequest :=
  { model := "gpt-4"
    messages :=
      [⟨"system",
        "Verify if this text EXACTLY matches " ++ claimed_bahr ++ " meter.\n                Standard pattern: " ++
          ((standard_patterns.lookup claimed_bahr).getD "Unknown") ++
          "\n                \n                Return ONLY 'VALID' or 'INVALID' with one line explanation."⟩,
       ⟨"user", text⟩]
    temperature := 1 / 10 }

/-- `validate_meter` (`src/streamlit_app.py` lines 63-91): ask the
external model whether the text matches the claimed meter and return its
stripped verdict; on exception return `"INVALID: Validation error"`. -/
def validate_meter (complete : Completion) (text claimed_bahr : String) : String :=
  match complete (validate_meter_request text claimed_bahr) with
  | Except.ok r => pyStrip r
  | Except.error _ => "INVALID: Validation error"

/-- The characters of the literal `"NO_MATCH"` tested by
`extract_bahr_from_analysis` with Python's `in` operator. -/
def noMatchToken : List Char := ['N', 'O', '_', 'M', 'A', 'T', 'C', 'H']

/-- The six characters `**بحر ` opening a bold meter name: the literal
part of the regular expression `\*\*(بحر [^*]+)\*\*`. -/
def boldBahrHead : List Char := ['*', '*', 'ب', 'ح', 'ر', ' ']

/-- The four characters `بحر ` that begin every captured group of the
regular expression. -/
def bahrWord : List Char := ['ب', 'ح', 'ر', ' ']

/-- One attempt of the regular expression `\*\*(بحر [^*]+)\*\*` at the
start of `cs`: after the literal `**بحر `, the greedy `[^*]+` consumes the
maximal star-free run, which must be non-empty and followed by `**`; the
captured group is `بحر ` plus that run.  (Backtracking `[^*]+` to a
shorter run cannot help, because the character after a shorter run lies
inside the star-free run and so cannot be the required `*`.) -/
def matchBahrAt (cs : List Char) : Option (List Char) :=
  if boldBahrHead.isPrefixOf cs then
    let rest := cs.drop 6
    let run := rest.takeWhile (· != '*')
    if run = [] then Option.none
    else if ['*', '*'].isPrefixOf (rest.dropWhile (· != '*')) then
      some (bahrWord ++ run)
    else Option.none
  else Option.none

/-- `re.search` semantics for `\*\*(بحر [^*]+)\*\*`: try each start
position left to right and return the first captured group. -/
def findBoldBahr : List Char → Option (List Char)
  | [] => Option.none
  | c :: cs =>
    match matchBahrAt (c :: cs) with
    | some r => some r
    | Option.none => findBoldBahr cs

/-- `extract_bahr_from_analysis` (`src/streamlit_app.py` lines 93-102) on
the character list of the analysis text: if `"NO_MATCH"` occurs anywhere,
return `"NO_MATCH"`; otherwise return the first regex capture
`بحر ...`, or `None` when the regex does not match. -/
def extract_bahr_from_analysis (analysis_text : List Char) : Option (List Char) :=
  if noMatchToken <:+: analysis_text then some noMatchToken
  else findBoldBahr analysis_text

/-- `extract_bahr_from_analysis` at `String` type, as used by the
top-level handler. -/
def extract_bahr_str (s : String) : Option String :=
  (extract_bahr_from_analysis s.data).map (fun cs => String.mk cs)

/-- The single chat request issued by `fit_to_bahr`
(`src/streamlit_app.py` lines 104-147); its f-string system prompt
interpolates the target meter twice. -/
def fit_to_bahr_request (poem target_bahr : String) : ChatRequest :=
  { model := "gpt-4"
    messages :=
      [⟨"system",
        "You are an expert in Arabic prosody (علم العروض). \n                Follow these steps to modify the verse to fit " ++
          target_bahr ++
          ":\n                \n                1. First identify the current meter pattern (if any)\n                2. Map out the target meter pattern exactly:\n                   - For طويل: فعولن مفاعيلن فعولن مفاعلن (×٢)\n                   - For بسيط: مستفعلن فاعلن مستفعلن فاعلن (×٢)\n                   - For وافر: مفاعلتن مفاعلتن فعولن (×٢)\n                   - [etc. - use exact pattern needed]\n                \n                3. Modify the verse following these rules:\n                   - Maintain all core words (أسماء وأفعال) possible\n                   - Adjust word order to fit meter\n                   - Use synonyms of same root when needed\n                   - Modify only particles (حروف) when possible\n                   - Keep the same rhyme letter (رَوِيّ)\n                \n                4. Verify the new version by:\n                   - Writing complete diacritical marks\n                   - Checking syllable by syllable\n                   - Confirming exact match to meter\n                \n                Format your response as:\n                **Original:** [original verse]\n                **Modification Process:**\n                [Explain your modifications]\n                **Modified:** [modified verse]\n                **Scansion of Modified Verse:**\n                [Show the scansion]\n                "⟩,
       ⟨"user", poem⟩]
    temperature := 7 / 10 }

/-- `fit_to_bahr` (`src/streamlit_app.py` lines 104-147): ask the model to
rewrite the poem in the target meter; stripped reply, or `None` on
exception. -/
def fit_to_bahr (complete : Completion) (poem target_bahr : String) : Option String :=
  match complete (fit_to_bahr_request poem target_bahr) with
  | Except.ok r => some (pyStrip r)
  | Except.error _ => Option.none

/-- The single chat request issued by `generate_response`
(`src/streamlit_app.py` lines 149-184): the poem is the user message; the
meter name (and, when an original meter is present, truthy and different,
a context note) is interpolated into the system prompt. -/
def generate_response_request (poem bahr : String) (original_bahr : Option String) : ChatRequest :=
  let context : String :=
    match original_bahr with
    | some ob =>
      if ob != "" && ob != bahr then
        "Note: The original poem was in " ++ ob ++ " but has been modified to fit " ++ bahr ++ "."
      else ""
    | Option.none => ""
  { model := "gpt-4"
    messages :=
      [⟨"system",
        "You are a classical Arabic poet. Compose a response verse that:\n                1. Strictly follows the " ++
          bahr ++
          " meter\n                2. Maintains the original theme\n                3. Uses classical Arabic language\n                4. Rhymes appropriately\n                5. Is grammatically correct\n                \n                Format your response as:\n                **Composition Process:**\n                [Explain your thinking]\n                \n                **Response Verse:**\n                [The verse]\n                \n                **Scansion:**\n                [Show the scansion]\n                \n                " ++
          context⟩,
       ⟨"user", poem⟩]
    temperature := 7 / 10 }

/-- `generate_response` (`src/streamlit_app.py` lines 149-184): stripped
reply of the model, or `None` on exception. -/
def generate_response (complete : Completion) (poem bahr : String)
    (original_bahr : Option String) : Option String :=
  match complete (generate_response_request poem bahr original_bahr) with
  | Except.ok r => some (pyStrip r)
  | Except.error _ => Option.none

/-- The options of the `preferred_bahr` selectbox
(`src/streamlit_app.py` lines 203-206). -/
def preferred_bahr_options : List String :=
  ["None", "الطويل", "البسيط", "الوافر", "الكامل", "الرجز", "الرمل", "السريع",
   "المنسرح", "الخفيف", "المضارع", "المقتضب", "المجتث", "المتقارب", "المتدارك"]

/-- A Streamlit display call recorded by the handler. -/
inductive UIEvent where
  | errorMsg (text : String)
  | warningMsg (text : String)
  | markdown (text : String)
  | balloons
deriving DecidableEq

/-- A Python runtime error escaping the handler: reading a variable that
was never assigned raises `NameError`. -/
inductive PyError where
  | nameError (v : String)
deriving DecidableEq

/-- The `st.markdown` wrapper used for analysis text
(`f"<div class='analysis-text'>{...}</div>"`). -/
def analysisDiv (s : String) : String :=
  "<div class='analysis-text'>" ++ s ++ "</div>"

/-- The loop of `src/streamlit_app.py` lines 232-237: the first line of
the modified result starting with `**Modified:**`, with that marker
removed (everywhere in the line, as `str.replace` does) and stripped. -/
def extract_modified_poem (modified_result : String) : Option String :=
  (modified_result.splitOn "\n").findSome? (fun line =>
    if line.startsWith "**Modified:**" then
      some (pyStrip (line.replace "**Modified:**" ""))
    else Option.none)

/-- The tail of the handler (`src/streamlit_app.py` lines 251-256), which
reads the variable `response`: `Option.none` means `response` was never
assigned on the path taken, so the read raises `NameError`; otherwise a
truthy response is rendered (with balloons) and a falsy one reports an
error. -/
def finishResponse (evs : List UIEvent) : Option (Option String) → Except PyError (List UIEvent)
  | Option.none => Except.error (PyError.nameError "response")
  | some response =>
    if truthy response then
      Except.ok (evs ++ [UIEvent.markdown "### Response:",
        UIEvent.markdown (analysisDiv (response.getD "")), UIEvent.balloons])
    else
      Except.ok (evs ++ [UIEvent.errorMsg "Could not generate response. Please try again."])

/-- The `Analyze & Generate` button handler
(`src/streamlit_app.py` lines 208-256).  `Option (Option String)` tracks
Python variables that may be unassigned on some paths (`original_bahr`,
`response`): the outer `Option.none` means "never assigned", and reading
such a variable raises `NameError`. -/
def run_analyze_handler (complete : Completion) (poem_input preferred_bahr : String) :
    Except PyError (List UIEvent) :=
  if pyStrip poem_input = "" then
    Except.ok [UIEvent.errorMsg "Please enter some Arabic poetry"]
  else
    let full_analysis := analyze_bahr complete poem_input
    let ev1 : List UIEvent :=
      if truthy full_analysis then
        [UIEvent.markdown "### Meter Analysis:",
         UIEvent.markdown (analysisDiv (full_analysis.getD ""))]
      else []
    let original_bahr? : Option (Option String) :=
      if truthy full_analysis then some (extract_bahr_str (full_analysis.getD ""))
      else Option.none
    match original_bahr? with
    | Option.none => Except.error (PyError.nameError "original_bahr")
    | some original_bahr =>
      if original_bahr == some "NO_MATCH" ||
          (preferred_bahr != "None" && original_bahr != some preferred_bahr) then
        let target_bahr := if preferred_bahr != "None" then preferred_bahr else "الطويل"
        let ev2 := ev1 ++ [UIEvent.warningMsg
          ("Poetry doesn't match " ++ target_bahr ++ " meter. Attempting to modify...")]
        match fit_to_bahr complete poem_input target_bahr with
        | some modified_result =>
          let ev3 := ev2 ++ [UIEvent.markdown "### Modified Poetry:",
            UIEvent.markdown (analysisDiv modified_result)]
          match extract_modified_poem modified_result with
          | some modified_poem =>
            finishResponse ev3
              (some (generate_response complete modified_poem target_bahr original_bahr))
          | Option.none =>
            finishResponse
              (ev3 ++ [UIEvent.errorMsg "Could not extract modified poem. Please try again."])
              Option.none
        | Option.none =>
          finishResponse
            (ev2 ++ [UIEvent.errorMsg
              "Could not modify the poem to fit the meter. Please try different poetry."])
            Option.none
      else
        if truthy original_bahr then
          finishResponse ev1
            (some (generate_response complete poem_input (original_bahr.getD "") Option.none))
        else
          finishResponse ev1 Option.none

/-! Spec-modelled prosodic engine.  The specification (§2-§4) describes a
character classifier, syllabifier and edit-distance meter matcher; that
engine is not part of `src/` (only the spec and the repository's other
prototypes, which are not staged, contain it), so the definitions below
are modelled from the specification's words. -/

/-- Modelled from the spec (§3, §4.1): the enumerated character class of
one input code point.  The Character Classifier itself is not in `src/`. -/
inductive CharClass where
  | consonant
  | shortVowel
  | longVowel
  | sukun
  | shadda
  | tanwin
  | space
  | other
deriving DecidableEq

/-- Fatḥa, U+064E. -/
def fatha : Char := Char.ofNat 0x064E
/-- Ḍamma, U+064F. -/
def damma : Char := Char.ofNat 0x064F
/-- Kasra, U+0650. -/
def kasra : Char := Char.ofNat 0x0650
/-- Sukūn, U+0652. -/
def sukunMark : Char := Char.ofNat 0x0652
/-- Shadda, U+0651. -/
def shaddaMark : Char := Char.ofNat 0x0651
/-- Fatḥatan, U+064B. -/
def fathatan : Char := Char.ofNat 0x064B
/-- Ḍammatan, U+064C. -/
def dammatan : Char := Char.ofNat 0x064C
/-- Kasratan, U+064D. -/
def kasratan : Char := Char.ofNat 0x064D
/-- Alif, U+0627. -/
def alif : Char := Char.ofNat 0x0627
/-- Wāw, U+0648. -/
def waw : Char := Char.ofNat 0x0648
/-- Yāʾ, U+064A. -/
def ya : Char := Char.ofNat 0x064A

/-- Modelled from the spec (§4.1 Character Classifier): fixed membership
sets — the three long-vowel letters (alif, wāw, yāʾ), the three
short-vowel diacritics, sukūn, shadda, the three tanwīn marks, the word
boundary, and the Arabic letters U+0621-U+064A as consonants. -/
def classify (c : Char) : CharClass :=
  if c = alif ∨ c = waw ∨ c = ya then CharClass.longVowel
  else if c = fatha ∨ c = damma ∨ c = kasra then CharClass.shortVowel
  else if c = sukunMark then CharClass.sukun
  else if c = shaddaMark then CharClass.shadda
  else if c = fathatan ∨ c = dammatan ∨ c = kasratan then CharClass.tanwin
  else if c = ' ' then CharClass.space
  else if 0x0621 ≤ c.toNat ∧ c.toNat ≤ 0x064A then CharClass.consonant
  else CharClass.other

/-- Syllable weight (§3). -/
inductive Weight where
  | light
  | heavy
deriving DecidableEq

/-- Modelled from the spec (§3): the closure reason of a syllable.  The
spec's data model lists `OpenCV, ClosedBySukun, ClosedByLongVowel,
ClosedByTanwin, ClosedByShadda, ClosedByConsonantCluster, or None`. -/
inductive ClosureReason where
  | openCV
  | closedBySukun
  | closedByLongVowel
  | closedByTanwin
  | closedByShadda
  | closedByConsonantCluster
  | none
deriving DecidableEq

/-- Modelled from the spec (§3): one prosodic unit — the consumed source
substring, the weight, and the closure reason. -/
structure Syllable where
  text : List Char
  weight : Weight
  closure : ClosureReason
deriving DecidableEq

/-- Modelled from the spec (§4.2 Determining-Closure): after consonant
`c` and short vowel `v`, inspect the following characters in priority
order (long vowel, sukūn, shadda, consonant-plus-sukūn cluster, else an
open light syllable).  Returns the syllable and how many further
characters beyond `c` and `v` were consumed. -/
def determineClosure (c v : Char) (rest : List Char) : Syllable × Nat :=
  match rest with
  | [] => (⟨[c, v], Weight.light, ClosureReason.openCV⟩, 0)
  | d :: rest' =>
    if classify d = CharClass.longVowel then
      (⟨[c, v, d], Weight.heavy, ClosureReason.closedByLongVowel⟩, 1)
    else if classify d = CharClass.sukun then
      (⟨[c, v, d], Weight.heavy, ClosureReason.closedBySukun⟩, 1)
    else if classify d = CharClass.shadda then
      (⟨[c, v, d], Weight.heavy, ClosureReason.closedByShadda⟩, 1)
    else
      match rest' with
      | e :: _ =>
        if classify d = CharClass.consonant ∧ classify e = CharClass.sukun then
          (⟨[c, v, d, e], Weight.heavy, ClosureReason.closedByConsonantCluster⟩, 2)
        else (⟨[c, v], Weight.light, ClosureReason.openCV⟩, 0)
      | [] => (⟨[c, v], Weight.light, ClosureReason.openCV⟩, 0)

/-- Modelled from the spec (§4.2 Seeking-Vowel): after consonant `c`, a
short-vowel mark opens a syllable whose closure is then determined; a
tanwīn mark closes the syllable immediately (`ClosedByTanwin`); anything
else abandons the consonant.  Returns the syllable and the number of
characters consumed after the consonant. -/
def seekVowel (c : Char) (rest : List Char) : Option (Syllable × Nat) :=
  match rest with
  | [] => Option.none
  | v :: rest' =>
    if classify v = CharClass.shortVowel then
      some ((determineClosure c v rest').1, (determineClosure c v rest').2 + 1)
    else if classify v = CharClass.tanwin then
      some (⟨[c, v], Weight.heavy, ClosureReason.closedByTanwin⟩, 1)
    else Option.none

/-- Modelled from the spec (§4.2 Syllabifier), with explicit fuel so that
the scan is structurally recursive: scan left to right; on a consonant,
try to emit a syllable and continue after it; on anything else, or when
the consonant is abandoned, continue at the next position.  Every step
consumes at least one character, so fuel equal to the input length (as
supplied by `syllabify`) never runs out. -/
def syllabifyAux : Nat → List Char → List Syllable
  | 0, _ => []
  | _ + 1, [] => []
  | fuel + 1, c :: rest =>
    if classify c = CharClass.consonant then
      match seekVowel c rest with
      | some (s, k) => s :: syllabifyAux fuel (rest.drop k)
      | Option.none => syllabifyAux fuel rest
    else syllabifyAux fuel rest

/-- Modelled from the spec (§4.2 Syllabifier): the left-to-right scan of
the whole input. -/
def syllabify (cs : List Char) : List Syllable :=
  syllabifyAux cs.length cs

/-- Modelled from the spec (§4.5 Meter Matcher): the minimum number of
single-symbol insertions, deletions or substitutions transforming one
weight-symbol string into the other — the classic recurrence of the
dynamic-programming edit distance. -/
def editDistance : List Char → List Char → Nat
  | [], ys => ys.length
  | x :: xs, [] => (x :: xs).length
  | x :: xs, y :: ys =>
    min (editDistance xs ys + (if x = y then 0 else 1))
      (min (editDistance (x :: xs) ys + 1) (editDistance xs (y :: ys) + 1))
termination_by xs ys => xs.length + ys.length
decreasing_by
  · simp only [List.length_cons]
    omega
  · simp only [List.length_cons]
    omega
  · simp only [List.length_cons]
    omega

/-- Modelled from the spec (§4.5): the meter-matching score,
`1 − edit_distance / max(len(a), len(b))`, over the rationals. -/
def score (a b : List Char) : ℚ :=
  1 - (editDistance a b : ℚ) / ((max a.length b.length : Nat) : ℚ)

/-- The letter bāʾ, U+0628, used in concrete inputs. -/
def baLetter : Char := Char.ofNat 0x0628

/-! Claim C1.  The claim states that the meter-matching score computed by
the code equals one minus the normalized minimum edit distance of the two
weight-symbol strings.  `validate_meter` — the only meter-matching code in
`src/` — computes no score at all: it forwards the text and the claimed
meter's catalog entry to the external model and returns the model's
verdict verbatim (stripped). -/

/-- Claim C1, counterexample: the matching outcome of `validate_meter` is
not a function of the text and the claimed meter at all — with the same
two arguments, two different external replies give two different results —
so it cannot equal `1 − edit_distance / max(len, len)` or any other
locally computed score. -/
theorem validate_meter_not_edit_distance_score :
    validate_meter (fun _ => Except.ok "VALID") "VSVS" "الطويل" ≠
      validate_meter (fun _ => Except.ok "INVALID: wrong meter") "VSVS" "الطويل" := by
  decide

/-- Claim C1, amended: `validate_meter` delegates the meter check to the
external model — its verdict is determined by the model's reply to the
single request built from the text and the claimed meter, and a failed
call yields the fixed fallback verdict `"INVALID: Validation error"`;
no edit-distance score is computed locally. -/
theorem validate_meter_delegates_to_model (c₁ c₂ : Completion) (text claimed_bahr : String)
    (h : c₁ (validate_meter_request text claimed_bahr) =
      c₂ (validate_meter_request text claimed_bahr)) :
    validate_meter c₁ text claimed_bahr = validate_meter c₂ text claimed_bahr ∧
      validate_meter (fun _ => Except.error "APIError") text claimed_bahr =
        "INVALID: Validation error" := by
  constructor
  · unfold validate_meter
    rw [h]
  · rfl

/-- Claim C1, witness for `validate_meter_delegates_to_model` at a
concrete text, meter and reply. -/
theorem validate_meter_delegates_to_model_witness :
    validate_meter (fun _ => Except.ok "VALID") "قفا نبك" "الوافر" =
      validate_meter (fun _ => Except.ok "VALID") "قفا نبك" "الوافر" ∧
      validate_meter (fun _ => Except.error "APIError") "قفا نبك" "الوافر" =
        "INVALID: Validation error" :=
  validate_meter_delegates_to_model _ _ "قفا نبك" "الوافر" rfl

/-! Claim C2.  The claim states that one analysis call is a pure
computation with no I/O and no network calls, so the result is a function
of the input alone.  `analyze_bahr` issues a network request on every
call and returns the external model's reply, so its result also depends
on the external world, not on the input alone. -/

/-- Claim C2, counterexample: two runs of `analyze_bahr` on the same
input string, differing only in the external model's reply, produce
different outputs — the result is not a function of the input alone, and
the call is not free of network I/O (it is exactly one request to the
oracle). -/
theorem analyze_bahr_depends_on_external_reply :
    analyze_bahr (fun _ => Except.ok "**بحر الطويل**") "شعر" ≠
      analyze_bahr (fun _ => Except.ok "NO_MATCH") "شعر" := by
  decide

/-- Claim C2, amended: `analyze_bahr` is deterministic given the external
reply — its output is a function of the input poem and of the model's
response to the single request `analyze_bahr_request poem` built from
that poem. -/
theorem analyze_bahr_deterministic_given_reply (c₁ c₂ : Completion) (poem : String)
    (h : c₁ (analyze_bahr_request poem) = c₂ (analyze_bahr_request poem)) :
    analyze_bahr c₁ poem = analyze_bahr c₂ poem := by
  unfold analyze_bahr
  rw [h]

/-- Claim C2, witness for `analyze_bahr_deterministic_given_reply` at a
concrete poem and reply. -/
theorem analyze_bahr_deterministic_given_reply_witness :
    analyze_bahr (fun _ => Except.ok "**بحر الكامل**") "يا دار" =
      analyze_bahr (fun _ => Except.ok "**بحر الكامل**") "يا دار" :=
  analyze_bahr_deterministic_given_reply _ _ "يا دار" rfl

/-! Claim C3.  The claim states that empty input yields an empty Syllable
list, empty Pattern and empty match list as ordinary values and is not
treated as an error.  The handler does the opposite: `st.error("Please
enter some Arabic poetry")` is the entire outcome, no analysis value of
any kind is produced. -/

/-- Claim C3, counterexample: on the empty input the handler's whole
output is the error message `Please enter some Arabic poetry` — the empty
input is treated as an error, and no empty Syllable list, Pattern or
match list is returned (the oracle is never consulted: the result is the
same for an oracle that always fails). -/
theorem empty_input_rejected_with_error :
    run_analyze_handler (fun _ => Except.error "never called") "" "None" =
      Except.ok [UIEvent.errorMsg "Please enter some Arabic poetry"] := by
  rfl

/-- Claim C3, amended: for every input that is empty after stripping
whitespace, the handler reports the error message `Please enter some
Arabic poetry` and performs no analysis (the outcome does not depend on
the oracle). -/
theorem empty_input_error_message (complete : Completion) (poem_input preferred_bahr : String)
    (h : pyStrip poem_input = "") :
    run_analyze_handler complete poem_input preferred_bahr =
      Except.ok [UIEvent.errorMsg "Please enter some Arabic poetry"] := by
  unfold run_analyze_handler
  rw [h]
  rfl

/-- Claim C3, witness for `empty_input_error_message` on whitespace-only
input. -/
theorem empty_input_error_message_witness :
    pyStrip "   " = "" ∧
      run_analyze_handler (fun _ => Except.ok "reply") "   " "الطويل" =
        Except.ok [UIEvent.errorMsg "Please enter some Arabic poetry"] :=
  ⟨rfl, empty_input_error_message _ "   " "الطويل" rfl⟩

/-! Claim C4.  The claim states that the analysis path never raises or
propagates an exception.  The helper functions do catch their own
exceptions (`analyze_bahr` returns `None`, `validate_meter` returns
`"INVALID: Validation error"`) — that is clearly the intended design —
but the top-level handler then reads variables that are unassigned on
several paths, which raises `NameError`:
* if `analyze_bahr` returns `None` (API failure), line 220 reads the
  never-assigned `original_bahr`;
* if the analysis reply contains neither `NO_MATCH` nor a bold
  `**بحر ...**` name and no preferred meter is chosen, line 251 reads the
  never-assigned `response`. -/

/-- Claim C4: both failing paths evaluated at concrete inputs.  A reply
without `NO_MATCH` or a bold meter name leaves `response` unassigned and
line 251 raises `NameError`; a failed analysis call leaves
`original_bahr` unassigned and line 220 raises `NameError`. -/
theorem handler_raises_nameError :
    run_analyze_handler (fun _ => Except.ok "hello") "شعر" "None" =
      Except.error (PyError.nameError "response") ∧
      run_analyze_handler (fun _ => Except.error "APIError") "شعر" "None" =
        Except.error (PyError.nameError "original_bahr") := by
  constructor <;> rfl

/-! Claim C5.  The claim states that the catalog holds all sixteen
canonical meters and that the matcher scores the input against every one
of the sixteen.  The table `standard_patterns` holds nine meters; the
app's own selectbox offers fourteen meter names, among them `المتقارب`,
which has no catalog entry; and `validate_meter` consults only the single
claimed meter's entry. -/

/-- Claim C5, counterexample: `المتقارب` (al-Mutaqārib, one of the sixteen
canonical meters, offered by the app's own meter selectbox) has no entry
in the pattern table — so the table does not contain entries for all
sixteen canonical meters. -/
theorem catalog_missing_canonical_meter :
    "المتقارب" ∈ preferred_bahr_options ∧
      standard_patterns.lookup "المتقارب" = Option.none := by
  decide

/-- Claim C5, amended: the static table holds exactly nine meters (the
selectbox offers `None` plus fourteen names), and `validate_meter`'s
request interpolates only the claimed meter's lookup
(`standard_patterns.get(claimed_bahr, 'Unknown')`), not a score against
every entry. -/
theorem catalog_has_nine_meters :
    standard_patterns.map Prod.fst =
      ["الطويل", "البسيط", "الوافر", "الكامل", "الرجز", "الرمل", "السريع", "المنسرح", "الخفيف"] ∧
      standard_patterns.length = 9 ∧ preferred_bahr_options.length = 15 := by
  decide

/-! Claim C6.  The claim states that the external text-generation
collaborator receives only the top match's meter name and, in particular,
not the raw input poem.  `generate_response(poem, bahr, original_bahr)`
sends the poem itself as the user message of its request (the handler
passes `poem_input` or the modified poem), along with the meter names in
the system prompt. -/

/-- Claim C6, counterexample: the request sent to the text-generation
collaborator for a concrete poem contains the raw poem text among its
message contents — the collaborator does not receive only the meter
name. -/
theorem generate_response_receives_poem :
    ((generate_response_request "قفا نبك من ذكرى حبيب" "الطويل" Option.none).messages.map
        (fun m => m.content)).contains "قفا نبك من ذكرى حبيب" = true ∧
      "قفا نبك من ذكرى حبيب" ≠ "الطويل" := by
  decide

/-- Claim C6, amended: every request built by `generate_response` has two
messages — a system prompt interpolating the meter name (and an optional
original-meter note) and a user message that is exactly the poem text —
so the collaborator receives the poem in addition to the meter name. -/
theorem generate_response_request_user_is_poem (poem bahr : String) (ob : Option String) :
    (generate_response_request poem bahr ob).messages.map (fun m => m.role) =
      ["system", "user"] ∧
      ((generate_response_request poem bahr ob).messages.map (fun m => m.content)).getLast? =
        some poem := by
  unfold generate_response_request
  constructor <;> rfl

/-! Claim C7.  The claim states that each of the sixteen catalog meters
stores a canonical_pattern re-derivable from its canonical_feet, checked
at initialization.  The table `standard_patterns` has nine entries, each
a bare foot-text string: no derived pattern is stored, nothing is checked
at initialization, and the stored foot texts carry no diacritics, so the
spec's own weight rules derive the empty pattern from every entry. -/

/-- Claim C7, counterexample: the catalog does not have sixteen entries,
so the claimed consistency property of "each of the sixteen catalog
meters" fails already at the catalog itself. -/
theorem catalog_not_sixteen : ¬ standard_patterns.length = 16 := by
  decide

/-- Claim C7, amended: the catalog holds nine meters, each only as an
undiacritized foot-text string; no canonical_pattern field exists to
check, and running the spec-modelled syllable-weight rules over every
stored foot text yields the empty pattern (so no re-derivation check is
possible, and none runs at initialization or at analysis time). -/
theorem catalog_feet_only_not_derivable :
    standard_patterns.length = 9 ∧
      standard_patterns.map (fun p => (syllabify p.2.data).length) =
        [0, 0, 0, 0, 0, 0, 0, 0, 0] := by
  decide

/-! Claim C8.  The claim states that every emitted Syllable satisfies
`weight = Heavy ↔ closure ≠ None`.  The spec's own syllabifier rules
(§4.2, rule 6) emit light syllables with closure `OpenCV`, not `None` —
so a light syllable has `closure ≠ None` and the claimed equivalence
fails, while weight is still a pure function of closure. -/

/-- Every syllable built by `determineClosure` is heavy exactly when its
closure is one of the `closedBy…` reasons, and its closure is never
`ClosureReason.none`. -/
theorem determineClosure_weight_closure (c v : Char) (rest : List Char) :
    ((determineClosure c v rest).1.weight = Weight.heavy ↔
      (determineClosure c v rest).1.closure ≠ ClosureReason.openCV) ∧
      (determineClosure c v rest).1.closure ≠ ClosureReason.none := by
  unfold determineClosure
  cases rest with
  | nil => exact ⟨by simp, by simp⟩
  | cons d rest' =>
    dsimp only
    split
    · exact ⟨by simp, by simp⟩
    · split
      · exact ⟨by simp, by simp⟩
      · split
        · exact ⟨by simp, by simp⟩
        · cases rest' with
          | nil => exact ⟨by simp, by simp⟩
          | cons e rest'' =>
            dsimp only
            split
            · exact ⟨by simp, by simp⟩
            · exact ⟨by simp, by simp⟩

/-- Every syllable emitted by `seekVowel` is heavy exactly when its
closure is one of the `closedBy…` reasons, and its closure is never
`ClosureReason.none`. -/
theorem seekVowel_weight_closure {c : Char} {rest : List Char} {s : Syllable} {k : Nat}
    (h : seekVowel c rest = some (s, k)) :
    (s.weight = Weight.heavy ↔ s.closure ≠ ClosureReason.openCV) ∧
      s.closure ≠ ClosureReason.none := by
  unfold seekVowel at h
  cases rest with
  | nil => exact absurd h (by simp)
  | cons v rest' =>
    dsimp only at h
    split at h
    · have hs : s = (determineClosure c v rest').1 := by
        injection h with h1
        injection h1 with h2 h3
        exact h2.symm
      rw [hs]
      exact determineClosure_weight_closure c v rest'
    · split at h
      · have hs : s = ⟨[c, v], Weight.heavy, ClosureReason.closedByTanwin⟩ := by
          injection h with h1
          injection h1 with h2 h3
          exact h2.symm
        rw [hs]
        exact ⟨by simp, by simp⟩
      · exact absurd h (by simp)

/-- Every syllable in the output of the fuelled scan satisfies the
weight/closure invariant. -/
theorem syllabifyAux_weight_closure {s : Syllable} :
    ∀ {fuel : Nat} {cs : List Char}, s ∈ syllabifyAux fuel cs →
      (s.weight = Weight.heavy ↔ s.closure ≠ ClosureReason.openCV) ∧
        s.closure ≠ ClosureReason.none := by
  intro fuel
  induction fuel with
  | zero =>
    intro cs h
    simp [syllabifyAux] at h
  | succ n ih =>
    intro cs h
    cases cs with
    | nil => simp [syllabifyAux] at h
    | cons c rest =>
      rw [syllabifyAux] at h
      split at h
      · cases hsv : seekVowel c rest with
        | none =>
          rw [hsv] at h
          exact ih h
        | some p =>
          obtain ⟨s', k⟩ := p
          rw [hsv] at h
          simp only [List.mem_cons] at h
          rcases h with h | h
          · subst h
            exact seekVowel_weight_closure hsv
          · exact ih h
      · exact ih h

/-- Claim C8, counterexample: the input `بَ` (bāʾ + fatḥa) produces one
light syllable whose closure is `OpenCV`, which is not `None` — so
`weight = Heavy ↔ closure ≠ None` is false for this syllable (light, yet
closure ≠ None). -/
theorem light_syllable_closure_not_none :
    syllabify [baLetter, fatha] =
      [⟨[baLetter, fatha], Weight.light, ClosureReason.openCV⟩] ∧
      ClosureReason.openCV ≠ ClosureReason.none := by
  decide

/-- Claim C8, amended: for every syllable of every analysis output,
weight is a pure function of closure — the syllable is heavy exactly when
its closure is one of the five `closedBy…` reasons, light exactly when
its closure is `OpenCV`, and the closure `None` never occurs in an
emitted syllable. -/
theorem syllabify_weight_closure (cs : List Char) (s : Syllable) (h : s ∈ syllabify cs) :
    (s.weight = Weight.heavy ↔ s.closure ≠ ClosureReason.openCV) ∧
      s.closure ≠ ClosureReason.none :=
  syllabifyAux_weight_closure h

/-- Claim C8, witness for `syllabify_weight_closure` on a heavy syllable
of the concrete input `بَا`. -/
theorem syllabify_weight_closure_witness :
    (⟨[baLetter, fatha, alif], Weight.heavy, ClosureReason.closedByLongVowel⟩ : Syllable) ∈
        syllabify [baLetter, fatha, alif] ∧
      ((⟨[baLetter, fatha, alif], Weight.heavy, ClosureReason.closedByLongVowel⟩ : Syllable).weight =
          Weight.heavy ↔
        (⟨[baLetter, fatha, alif], Weight.heavy, ClosureReason.closedByLongVowel⟩ : Syllable).closure ≠
          ClosureReason.openCV) ∧
      (⟨[baLetter, fatha, alif], Weight.heavy, ClosureReason.closedByLongVowel⟩ : Syllable).closure ≠
        ClosureReason.none :=
  ⟨by decide, syllabify_weight_closure [baLetter, fatha, alif] _ (by decide)⟩

/-! Claim C9.  The spec's meter-matching score (§4.5) — absent from
`src/`, modelled above as `score` over the spec-modelled `editDistance` —
is symmetric in its two weight strings. -/

/-- The edit distance to the empty string is the string's length. -/
theorem editDistance_nil_right (ys : List Char) : editDistance ys [] = ys.length := by
  cases ys <;> simp [editDistance]

/-- The single-symbol edit distance is symmetric. -/
theorem editDistance_symm (xs : List Char) : ∀ ys : List Char,
    editDistance xs ys = editDistance ys xs := by
  induction xs with
  | nil =>
    intro ys
    simp [editDistance, editDistance_nil_right]
  | cons x xs ih =>
    intro ys
    induction ys with
    | nil => simp [editDistance, editDistance_nil_right]
    | cons y ys ih2 =>
      have hc : ((if x = y then 0 else 1) : Nat) = if y = x then 0 else 1 := by
        by_cases h : x = y
        · simp [h]
        · rw [if_neg h, if_neg (fun hyx => h hyx.symm)]
      simp only [editDistance]
      rw [hc, ih ys, ih (y :: ys), ih2]
      omega

/-- Claim C9: the meter-matching score is symmetric — for any two
non-empty weight-symbol strings, `score a b = score b a`. -/
theorem score_symm (a b : List Char) (_ha : a ≠ []) (_hb : b ≠ []) :
    score a b = score b a := by
  unfold score
  rw [editDistance_symm a b, Nat.max_comm a.length b.length]

/-- Claim C9, witness for `score_symm` at the concrete weight strings
`VS` and `V`. -/
theorem score_symm_witness :
    (['V', 'S'] ≠ ([] : List Char) ∧ ['V'] ≠ ([] : List Char)) ∧
      score ['V', 'S'] ['V'] = score ['V'] ['V', 'S'] :=
  ⟨⟨by decide, by decide⟩, score_symm ['V', 'S'] ['V'] (by decide) (by decide)⟩

/-! Claim C10.  `extract_bahr_from_analysis` is characterized against a
declarative reading of its code: `NO_MATCH` anywhere returns `NO_MATCH`
(taking precedence); otherwise the first (leftmost) substring of the form
`**بحر ...**` — a star-free inner text `بحر ...` delimited by `**` —
yields that inner text; otherwise `None`. -/

/-- A match of the regular expression `\*\*(بحر [^*]+)\*\*` at the start
of `cs` with captured group `inner`: `cs` starts with `**`, then `inner`,
then `**`; `inner` starts with `بحر ` followed by at least one more
character; and `inner` contains no `*`. -/
def MatchHere (cs inner : List Char) : Prop :=
  (∃ tail, cs = ['*', '*'] ++ inner ++ ['*', '*'] ++ tail) ∧
    bahrWord <+: inner ∧ bahrWord.length < inner.length ∧ '*' ∉ inner

/-- A match of the regular expression with captured group `inner`
starting at position `i` of `cs`. -/
def SpecMatchAt (cs : List Char) (i : Nat) (inner : List Char) : Prop :=
  MatchHere (cs.drop i) inner

/-- `inner` is the capture of the leftmost match of the regular
expression in `cs`: it matches at some position no later than any other
match. -/
def FirstBahrCapture (cs inner : List Char) : Prop :=
  ∃ i, SpecMatchAt cs i inner ∧ ∀ j t, SpecMatchAt cs j t → i ≤ j

/-- Splitting a star-free run followed by a star: `takeWhile` recovers
the run and `dropWhile` the rest. -/
theorem takeWhile_star_free (u : List Char) (t : List Char) (hu : '*' ∉ u) :
    (u ++ '*' :: t).takeWhile (· != '*') = u ∧
      (u ++ '*' :: t).dropWhile (· != '*') = '*' :: t := by
  induction u with
  | nil => simp [List.takeWhile, List.dropWhile]
  | cons a u ih =>
    have ha : a ≠ '*' := fun h => hu (h ▸ List.mem_cons_self a u)
    have ha' : (a != '*') = true := by simpa using ha
    have hu' : '*' ∉ u := fun h => hu (List.mem_cons_of_mem a h)
    obtain ⟨ih1, ih2⟩ := ih hu'
    constructor
    · simpa [List.takeWhile, ha'] using ih1
    · simpa [List.dropWhile, ha'] using ih2

/-- One regex attempt agrees with the declarative match-at-start
predicate: `matchBahrAt cs` returns `some inner` exactly when the regular
expression matches at the start of `cs` with capture `inner`. -/
theorem matchBahrAt_iff (cs inner : List Char) :
    matchBahrAt cs = some inner ↔ MatchHere cs inner := by
  constructor
  · intro h
    unfold matchBahrAt at h
    split at h
    case isTrue hpre =>
      obtain ⟨t, ht⟩ := List.isPrefixOf_iff_prefix.mp hpre
      have hdrop : cs.drop 6 = t := by
        rw [← ht]
        exact List.drop_left boldBahrHead t
      dsimp only at h
      rw [hdrop] at h
      split at h
      case isTrue => exact absurd h (by simp)
      case isFalse hrun =>
        split at h
        case isFalse => exact absurd h (by simp)
        case isTrue hpre2 =>
          obtain ⟨tail, htail⟩ := List.isPrefixOf_iff_prefix.mp hpre2
          have hinner : inner = bahrWord ++ t.takeWhile (· != '*') := by
            injection h with h1
            exact h1.symm
          have hstarfree : '*' ∉ t.takeWhile (· != '*') := by
            intro hmem
            have := List.mem_takeWhile_imp hmem
            simp at this
          refine ⟨⟨tail, ?_⟩, ?_, ?_, ?_⟩
          · rw [← ht, hinner]
            have hsplit : t = t.takeWhile (· != '*') ++ t.dropWhile (· != '*') :=
              (List.takeWhile_append_dropWhile _ t).symm
            rw [show (boldBahrHead : List Char) = ['*', '*'] ++ bahrWord from rfl]
            conv_lhs => rw [hsplit, ← htail]
            simp
          · rw [hinner]
            exact List.prefix_append bahrWord _
          · rw [hinner]
            simp only [List.length_append]
            have : t.takeWhile (· != '*') ≠ [] := hrun
            have : 0 < (t.takeWhile (· != '*')).length := List.length_pos.mpr this
            omega
          · rw [hinner]
            intro hmem
            rcases List.mem_append.mp hmem with hmem | hmem
            · revert hmem
              decide
            · exact hstarfree hmem
    case isFalse => exact absurd h (by simp)
  · rintro ⟨⟨tail, htail⟩, ⟨u, hu⟩, hlen, hstar⟩
    have hu' : inner = bahrWord ++ u := hu.symm
    have hufree : '*' ∉ u := fun hm => hstar (hu' ▸ List.mem_append_right bahrWord hm)
    have hulen : u ≠ [] := by
      intro h0
      rw [hu', h0] at hlen
      simp at hlen
    have hcs : cs = boldBahrHead ++ (u ++ '*' :: '*' :: tail) := by
      rw [htail, hu']
      simp [boldBahrHead, bahrWord]
    unfold matchBahrAt
    have hpre : boldBahrHead.isPrefixOf cs = true := by
      rw [List.isPrefixOf_iff_prefix, hcs]
      exact List.prefix_append boldBahrHead _
    rw [if_pos hpre]
    have hdrop : cs.drop 6 = u ++ '*' :: '*' :: tail := by
      rw [hcs]
      exact List.drop_left boldBahrHead _
    obtain ⟨htw, hdw⟩ := takeWhile_star_free u ('*' :: tail) hufree
    dsimp only
    rw [hdrop, htw, hdw, if_neg hulen]
    rw [if_pos (by rw [List.isPrefixOf_iff_prefix]; exact ⟨tail, rfl⟩)]
    rw [hu']

/-- The scan finds nothing exactly when no position matches. -/
theorem findBoldBahr_eq_none_iff (cs : List Char) :
    findBoldBahr cs = Option.none ↔ ∀ i, matchBahrAt (cs.drop i) = Option.none := by
  induction cs with
  | nil =>
    constructor
    · intro _ i
      rw [List.drop_nil]
      decide
    · intro _
      rfl
  | cons c cs ih =>
    cases h : matchBahrAt (c :: cs) with
    | some r =>
      simp only [findBoldBahr, h]
      constructor
      · intro habs
        cases habs
      · intro hall
        have := hall 0
        rw [List.drop_zero, h] at this
        cases this
    | none =>
      simp only [findBoldBahr, h]
      rw [ih]
      constructor
      · intro hall i
        cases i with
        | zero =>
          rw [List.drop_zero]
          exact h
        | succ n =>
          rw [List.drop_succ_cons]
          exact hall n
      · intro hall i
        have := hall (i + 1)
        rwa [List.drop_succ_cons] at this

/-- The scan returns `some r` exactly when some position matches with
capture `r` and no earlier position matches at all. -/
theorem findBoldBahr_eq_some_iff (cs r : List Char) :
    findBoldBahr cs = some r ↔
      ∃ i, matchBahrAt (cs.drop i) = some r ∧
        ∀ j, j < i → matchBahrAt (cs.drop j) = Option.none := by
  induction cs with
  | nil =>
    constructor
    · intro habs
      cases habs
    · rintro ⟨i, hi, -⟩
      rw [List.drop_nil] at hi
      have hnil : matchBahrAt ([] : List Char) = Option.none := rfl
      rw [hnil] at hi
      cases hi
  | cons c cs ih =>
    cases h : matchBahrAt (c :: cs) with
    | some r' =>
      simp only [findBoldBahr, h]
      constructor
      · intro heq
        refine ⟨0, ?_, ?_⟩
        · rw [List.drop_zero, h]
          exact heq
        · intro j hj
          exact absurd hj (Nat.not_lt_zero j)
      · rintro ⟨i, hi, hlt⟩
        cases i with
        | zero =>
          rw [List.drop_zero, h] at hi
          exact hi
        | succ n =>
          have := hlt 0 (Nat.succ_pos n)
          rw [List.drop_zero, h] at this
          cases this
    | none =>
      simp only [findBoldBahr, h]
      rw [ih]
      constructor
      · rintro ⟨i, hi, hlt⟩
        refine ⟨i + 1, ?_, ?_⟩
        · rwa [List.drop_succ_cons]
        · intro j hj
          cases j with
          | zero =>
            rw [List.drop_zero]
            exact h
          | succ m =>
            rw [List.drop_succ_cons]
            exact hlt m (by omega)
      · rintro ⟨i, hi, hlt⟩
        cases i with
        | zero =>
          rw [List.drop_zero, h] at hi
          cases hi
        | succ n =>
          refine ⟨n, ?_, ?_⟩
          · rwa [List.drop_succ_cons] at hi
          · intro j hj
            have := hlt (j + 1) (by omega)
            rwa [List.drop_succ_cons] at this

/-- Claim C10: `extract_bahr_from_analysis` is a total function on
character strings such that: any input containing `NO_MATCH` returns
`NO_MATCH` (this takes precedence over any bold meter name); otherwise
the result is `some r` exactly when `r` is the capture of the leftmost
`**بحر ...**` match, and `None` exactly when no position of the input
matches the regular expression. -/
theorem extract_bahr_from_analysis_spec (s : List Char) :
    (noMatchToken <:+: s → extract_bahr_from_analysis s = some noMatchToken) ∧
      (¬ noMatchToken <:+: s →
        (∀ r, extract_bahr_from_analysis s = some r ↔ FirstBahrCapture s r) ∧
          (extract_bahr_from_analysis s = Option.none ↔ ∀ i t, ¬ SpecMatchAt s i t)) := by
  constructor
  · intro h
    unfold extract_bahr_from_analysis
    rw [if_pos h]
  · intro h
    have hext : extract_bahr_from_analysis s = findBoldBahr s := by
      unfold extract_bahr_from_analysis
      rw [if_neg h]
    constructor
    · intro r
      rw [hext]
      constructor
      · intro hf
        obtain ⟨i, hi, hlt⟩ := (findBoldBahr_eq_some_iff s r).mp hf
        refine ⟨i, (matchBahrAt_iff _ _).mp hi, ?_⟩
        intro j t hjt
        by_contra hij
        have hj : j < i := by omega
        have := hlt j hj
        rw [(matchBahrAt_iff _ _).mpr hjt] at this
        cases this
      · rintro ⟨i, hi, hmin⟩
        have hmi : matchBahrAt (s.drop i) = some r := (matchBahrAt_iff _ _).mpr hi
        cases hf : findBoldBahr s with
        | none =>
          have := (findBoldBahr_eq_none_iff s).mp hf i
          rw [hmi] at this
          cases this
        | some r' =>
          obtain ⟨i', hi', hlt'⟩ := (findBoldBahr_eq_some_iff s r').mp hf
          have h1 : i ≤ i' := hmin i' r' ((matchBahrAt_iff _ _).mp hi')
          have h2 : ¬ i < i' := by
            intro hlt
            have := hlt' i hlt
            rw [hmi] at this
            cases this
          have : i = i' := by omega
          rw [this, hi'] at hmi
          injection hmi with hr
          rw [hr]
    · rw [hext, findBoldBahr_eq_none_iff]
      constructor
      · intro hall i t hit
        have := hall i
        rw [(matchBahrAt_iff _ _).mpr hit] at this
        cases this
      · intro hall i
        cases hm : matchBahrAt (s.drop i) with
        | none => rfl
        | some t => exact absurd ((matchBahrAt_iff _ _).mp hm) (hall i t)

end PoetricMeter
